import Mathlib

/-!
Shallow embedding of `office_to_png.py` (supaclaw): a three-stage pipeline
(Converter `office_to_pdf`, Rasterizer `pdf_to_png_pages`, Driver `main`).
External effects (temp-directory creation/removal, subprocess invocation,
directory creation, file writes, document open/close) are recorded as an
event trace; external outcomes (whether the office binary is on the search
path, whether the subprocess succeeds, the files it produces, the pages of
the PDF and whether each renders) are inputs supplied by an environment.
Fallible code returns `Except`.
-/

deriving instance DecidableEq for Except

namespace OfficeToPng

/-- Side effects performed by the pipeline, in program order.
`createTmp` is `tempfile.mkdtemp`, `runSoffice` the `subprocess.run` of the
office binary, `removeTmp` a `shutil.rmtree` of the temp directory,
`mkdirOutdir` is `outdir.mkdir(parents=True, exist_ok=True)`, `readPdfBytes`
is `pdf_path.read_bytes()`, `openDoc`/`closeDoc` the `pdfium.PdfDocument`
handle lifecycle, and `writePng name channels` the `write_bytes` of one
encoded page image. -/
inductive Event
  | createTmp
  | runSoffice
  | removeTmp
  | mkdirOutdir
  | readPdfBytes
  | openDoc
  | closeDoc
  | writePng (name : String) (channels : Nat)
deriving DecidableEq, Repr

/-- How the office-suite subprocess invocation failed (the exception caught
by the `except` clause around `subprocess.run`). -/
inductive SubprocFailure
  | nonZeroExit
  | timeout
  | otherFailure
deriving DecidableEq, Repr

/-- Cause carried by a ConversionFailed error: a re-raised subprocess
failure, or the `RuntimeError` for a missing/ambiguous output PDF. -/
inductive ConvCause
  | process (f : SubprocFailure)
  | noPdfProduced
deriving DecidableEq, Repr

/-- Error taxonomy of the pipeline (`SystemExit` for a missing input,
`RuntimeError`s from the converter, exceptions from the rasterizer). -/
inductive Err
  | inputNotFound
  | toolNotFound
  | conversionFailed (cause : ConvCause)
  | rasterizationFailed
deriving DecidableEq, Repr

/-! ### PIL image model (modes and channel counts only) -/

/-- Pixel modes a rendered page may carry (PIL `Image.mode`). -/
inductive Mode
  | RGB
  | RGBA
  | L
  | P
  | CMYK
deriving DecidableEq, Repr

/-- Number of colour channels of a PIL mode. -/
def Mode.channels : Mode → Nat
  | .RGB => 3
  | .RGBA => 4
  | .L => 1
  | .P => 1
  | .CMYK => 4

/-- A PIL image, abstracted to its pixel mode. -/
structure PilImage where
  mode : Mode
deriving DecidableEq, Repr

/-- Pixel-format conversion to mode `m` (PIL `img.convert(m)`). -/
def PilImage.convert (_img : PilImage) (m : Mode) : PilImage := ⟨m⟩

/-- Fresh image of mode `m` (PIL `Image.new(m, size, color)`). -/
def imageNew (m : Mode) : PilImage := ⟨m⟩

/-- In-place paste: `bg.paste(src, mask=...)` mutates `bg`; the result the
code keeps using is `bg`, whose mode is unchanged. -/
def PilImage.paste (bg : PilImage) (_src : PilImage) : PilImage := bg

/-- Lines 66-72 of `pdf_to_png_pages`: if the mode is neither RGB nor RGBA,
convert to RGB; if it is RGBA, composite onto an opaque white RGB
background; otherwise keep the image. -/
def ensureRGB (pil : PilImage) : PilImage :=
  if pil.mode ≠ Mode.RGB ∧ pil.mode ≠ Mode.RGBA then
    pil.convert Mode.RGB
  else if pil.mode = Mode.RGBA then
    let bg := imageNew Mode.RGB
    bg.paste pil
  else
    pil

/-! ### Python `pathlib` name helpers -/

/-- Python `str.lower()`, on the ASCII letters that can occur in a file
extension (character-wise lowercasing). -/
def pyLower (s : String) : String := String.mk (s.toList.map Char.toLower)

/-- Index of the last `'.'` in a character list (`str.rfind('.')`),
`none` when absent. -/
def lastDotIdx : List Char → Option Nat
  | [] => none
  | c :: rest =>
    match (lastDotIdx rest).map (· + 1) with
    | some j => some j
    | none => if c = '.' then some 0 else none

/-- Python `PurePath.suffix`: the final component's extension including the dot,
empty unless the last dot is at an index `i` with `0 < i < len - 1`. -/
def pathSuffix (name : String) : String :=
  let cs := name.toList
  match lastDotIdx cs with
  | none => ""
  | some i => if 0 < i ∧ i < cs.length - 1 then String.mk (cs.drop i) else ""

/-- Python `PurePath.stem`: the final component without its suffix. -/
def pathStem (name : String) : String :=
  let cs := name.toList
  match lastDotIdx cs with
  | none => name
  | some i => if 0 < i ∧ i < cs.length - 1 then String.mk (cs.take i) else name

/-! ### Converter: `office_to_pdf` -/

/-- External outcomes of one Converter invocation: whether `shutil.which`
finds the office binary, whether `subprocess.run` fails (and how), and the
names of the files present in the temp directory after a successful run. -/
structure ConvEnv where
  sofficeFound : Bool
  subprocFail : Option SubprocFailure
  producedFiles : List String
deriving Repr

/-- Membership test of the directory scan `tmpdir.glob("*.pdf")`: the
pattern's `*` matches any (possibly empty) leading part of the file name,
so a name matches exactly when it ends with `.pdf` (case-sensitively). -/
def matchesPdfGlob (s : String) : Bool := ".pdf".toList.isSuffixOf s.toList

/-- Insert a string into a list keeping `≤` order (helper for `sorted`). -/
def insertStr (a : String) : List String → List String
  | [] => [a]
  | b :: rest => if a ≤ b then a :: b :: rest else b :: insertStr a rest

/-- Python `sorted` on a list of strings (insertion sort; Python's sort is
also a stable comparison sort over the same lexicographic order). -/
def sortStrs : List String → List String
  | [] => []
  | a :: rest => insertStr a (sortStrs rest)

/-- Converter `office_to_pdf` (lines 13-49): locate the binary, make a temp
directory, run the conversion (removing the temp directory and re-raising
on any invocation failure), then locate the output PDF: the expected
`<stem>.pdf` if it exists, else the unique `*.pdf` from a sorted directory
scan, else a `RuntimeError`. Returns the located PDF's file name together
with the trace of effects. -/
def office_to_pdf (env : ConvEnv) (stem : String) : Except Err String × List Event :=
  if env.sofficeFound = false then
    (.error .toolNotFound, [])
  else
    match env.subprocFail with
    | some f =>
      (.error (.conversionFailed (.process f)),
       [.createTmp, .runSoffice, .removeTmp])
    | none =>
      let expected := stem ++ ".pdf"
      if expected ∈ env.producedFiles then
        (.ok expected, [.createTmp, .runSoffice])
      else
        match sortStrs (env.producedFiles.filter matchesPdfGlob) with
        | [p] => (.ok p, [.createTmp, .runSoffice])
        | _ => (.error (.conversionFailed .noPdfProduced), [.createTmp, .runSoffice])

/-! ### Rasterizer: `pdf_to_png_pages` -/

/-- One page of the opened document: whether fetching/rendering/encoding it
succeeds, and the pixel mode of the rendered raster. -/
structure PageSpec where
  renderOk : Bool
  mode : Mode
deriving Repr

/-- External outcomes of one Rasterizer invocation: whether `read_bytes`
succeeds, whether `pdfium.PdfDocument` opens, and the document's pages. -/
structure RasterEnv where
  readOk : Bool
  openOk : Bool
  pages : List PageSpec
deriving Repr

/-- Output file name for 1-based page number `n`, zero-padded to 4 digits
(the Python format 04d). -/
def pageFileName (n : Nat) : String :=
  let s := toString n
  let padded := if s.length < 4 then String.mk (List.replicate (4 - s.length) '0') ++ s else s
  "page_" ++ padded ++ ".png"

/-- The `for i in range(n_pages)` loop body (lines 63-77), from page index
`i` on: render the page, normalise to RGB, encode and write
`page_{i+1:04d}.png`; stop with an exception if a page fails. -/
def renderPagesFrom : List PageSpec → Nat → Except Err Unit × List Event
  | [], _ => (.ok (), [])
  | p :: rest, i =>
    if p.renderOk then
      let pil := ensureRGB ⟨p.mode⟩
      let ev := Event.writePng (pageFileName (i + 1)) pil.mode.channels
      let (r, tr) := renderPagesFrom rest (i + 1)
      (r, ev :: tr)
    else
      (.error .rasterizationFailed, [])

/-- Rasterizer `pdf_to_png_pages` (lines 52-80): create the output directory, read the
PDF bytes, open the document; return 0 for an empty document; otherwise
render every page; the handle is closed in a `finally` block on every exit
path that opened it. Returns the page count with the trace of effects. -/
def pdf_to_png_pages (env : RasterEnv) : Except Err Nat × List Event :=
  if env.readOk = false then
    (.error .rasterizationFailed, [.mkdirOutdir])
  else if env.openOk = false then
    (.error .rasterizationFailed, [.mkdirOutdir, .readPdfBytes])
  else
    let nPages := env.pages.length
    if nPages ≤ 0 then
      (.ok 0, [.mkdirOutdir, .readPdfBytes, .openDoc, .closeDoc])
    else
      let (r, tr) := renderPagesFrom env.pages 0
      (r.map fun _ => nPages,
       [.mkdirOutdir, .readPdfBytes, .openDoc] ++ tr ++ [.closeDoc])

/-! ### Driver: `main` -/

/-- Inputs of one Driver run: the resolved input path's final component,
whether the input exists, and the environments of the two stages. -/
structure DriverEnv where
  inputName : String
  inputExists : Bool
  conv : ConvEnv
  raster : RasterEnv
deriving Repr

/-- Driver `main` (lines 83-121), after argument parsing: fail if the input does
not exist; if its suffix lowercases to `".pdf"` rasterize it directly
(`tmp_pdf` stays `None`); otherwise convert first and rasterize the result;
the `finally` block removes the temp directory (errors swallowed) exactly
when `tmp_pdf` was assigned, i.e. when `office_to_pdf` returned normally. -/
def main (env : DriverEnv) : Except Err Nat × List Event :=
  if env.inputExists = false then
    (.error .inputNotFound, [])
  else if pyLower (pathSuffix env.inputName) = ".pdf" then
    pdf_to_png_pages env.raster
  else
    match office_to_pdf env.conv (pathStem env.inputName) with
    | (.error e, ctr) => (.error e, ctr)
    | (.ok _, ctr) =>
      let (r, rtr) := pdf_to_png_pages env.raster
      (r, ctr ++ rtr ++ [Event.removeTmp])

/-! ### Trace observations -/

/-- Number of temp-directory removals in a trace. -/
def countRemoveTmp (tr : List Event) : Nat :=
  tr.countP (· = Event.removeTmp)

/-- File names written by a trace, in order. -/
def writtenNames : List Event → List String
  | [] => []
  | .writePng name _ :: tr => name :: writtenNames tr
  | _ :: tr => writtenNames tr

/-- Channel counts of the files written by a trace, in order. -/
def writtenChannels : List Event → List Nat
  | [] => []
  | .writePng _ c :: tr => c :: writtenChannels tr
  | _ :: tr => writtenChannels tr

/-- The expected output file names for an `n`-page document:
`page_0001.png` up to the zero-padded name of page `n`. -/
def pageNames (n : Nat) : List String :=
  (List.range n).map fun k => pageFileName (k + 1)

/-- The write events issued by the render loop for `n` consecutive pages
starting at 0-based loop index `i` (each page file has 3 channels). -/
def pageEvents : Nat → Nat → List Event
  | _, 0 => []
  | i, m + 1 => Event.writePng (pageFileName (i + 1)) 3 :: pageEvents (i + 1) m

/-! ### Concrete runs used to instantiate the theorems -/

/-- A run on input `doc.docx` where LibreOffice is found and the subprocess
exits 0, but the temp directory contains no PDF afterwards. -/
def discoveryFailureRun : DriverEnv :=
  { inputName := "doc.docx", inputExists := true,
    conv := { sofficeFound := true, subprocFail := none, producedFiles := [] },
    raster := { readOk := true, openOk := true, pages := [] } }

/-- A valid 2-page document, one RGB page and one RGBA page. -/
def twoPageDoc : RasterEnv :=
  { readOk := true, openOk := true,
    pages := [⟨true, Mode.RGB⟩, ⟨true, Mode.RGBA⟩] }

/-- A valid 0-page document. -/
def emptyDoc : RasterEnv :=
  { readOk := true, openOk := true, pages := [] }

/-- A 3-page document whose second page fails to render. -/
def failingSecondPageDoc : RasterEnv :=
  { readOk := true, openOk := true,
    pages := [⟨true, Mode.L⟩, ⟨false, Mode.RGB⟩, ⟨true, Mode.RGB⟩] }

/-- A successful conversion whose temp directory holds the expected
`doc.pdf` and also a second PDF. -/
def multiPdfConv : ConvEnv :=
  { sofficeFound := true, subprocFail := none,
    producedFiles := ["doc.pdf", "extra.pdf", "doc.txt"] }

/-- A successful conversion where the expected name is absent but exactly
one PDF exists. -/
def fallbackConv : ConvEnv :=
  { sofficeFound := true, subprocFail := none,
    producedFiles := ["renamed.pdf", "doc.txt"] }

/-- A conversion whose subprocess times out. -/
def timedOutConv : ConvEnv :=
  { sofficeFound := true, subprocFail := some SubprocFailure.timeout,
    producedFiles := [] }

/-- An environment with no office binary on the search path. -/
def noToolConv : ConvEnv :=
  { sofficeFound := false, subprocFail := none, producedFiles := [] }

/-- A run whose input is `report.PDF` (upper-case extension) and whose
rasterization fails on the second page. -/
def pdfInputRun : DriverEnv :=
  { inputName := "report.PDF", inputExists := true,
    conv := noToolConv, raster := failingSecondPageDoc }

/-! ### Helper lemmas -/

/-- Colour normalisation always yields an RGB (3-channel) image. -/
theorem ensureRGB_mode (img : PilImage) : (ensureRGB img).mode = Mode.RGB := by
  cases img with
  | mk m => cases m <;> rfl

/-- The render loop, characterised: it succeeds exactly when every page
renders, and its effects are the page writes for the longest renderable
initial segment. -/
theorem renderPagesFrom_eq (ps : List PageSpec) (i : Nat) :
    renderPagesFrom ps i =
      ((if ps.all (·.renderOk) then Except.ok () else Except.error Err.rasterizationFailed),
        pageEvents i (ps.takeWhile (·.renderOk)).length) := by
  induction ps generalizing i with
  | nil => rfl
  | cons p rest ih =>
    by_cases hp : p.renderOk = true
    · simp [renderPagesFrom, hp, ih (i + 1), List.takeWhile_cons, pageEvents,
        ensureRGB_mode, Mode.channels]
    · simp [renderPagesFrom, hp, List.takeWhile_cons, pageEvents]

/-- Every event of the render loop is a page write. -/
theorem eq_writePng_of_mem_pageEvents {e : Event} :
    ∀ {n i : Nat}, e ∈ pageEvents i n → ∃ name c, e = Event.writePng name c := by
  intro n
  induction n with
  | zero => intro i h; simp [pageEvents] at h
  | succ m ih =>
    intro i h
    rcases List.mem_cons.mp h with h | h
    · exact ⟨_, _, h⟩
    · exact ih h

/-- An event that is not a page write does not occur in the render loop. -/
theorem not_mem_pageEvents (e : Event)
    (he : ∀ name c, e ≠ Event.writePng name c) (n i : Nat) :
    e ∉ pageEvents i n := by
  intro h
  obtain ⟨name, c, hc⟩ := eq_writePng_of_mem_pageEvents h
  exact he name c hc

/-- The page writes of the render loop match no other event kind. -/
theorem countP_pageEvents (p : Event → Bool)
    (hp : ∀ name c, p (Event.writePng name c) = false) :
    ∀ n i, (pageEvents i n).countP p = 0 := by
  intro n
  induction n with
  | zero => intro i; rfl
  | succ m ih => intro i; simp [pageEvents, List.countP_cons, hp, ih]

/-- File names written by the render loop for `n` pages from index `i`. -/
theorem writtenNames_pageEvents (n : Nat) :
    ∀ i, writtenNames (pageEvents i n) =
      (List.range n).map fun k => pageFileName (i + k + 1) := by
  induction n with
  | zero => intro i; rfl
  | succ m ih =>
    intro i
    have htail : (List.range m).map (fun k => pageFileName (i + 1 + k + 1)) =
        (List.range m).map ((fun k => pageFileName (i + k + 1)) ∘ Nat.succ) := by
      apply List.map_congr_left
      intro k _
      simp only [Function.comp_apply]
      congr 1
      omega
    rw [List.range_succ_eq_map, List.map_cons, List.map_map]
    show pageFileName (i + 1) :: writtenNames (pageEvents (i + 1) m) = _
    rw [ih (i + 1), htail]

/-- Channel counts written by the render loop: always 3. -/
theorem writtenChannels_pageEvents (n : Nat) :
    ∀ i, writtenChannels (pageEvents i n) = List.replicate n 3 := by
  induction n with
  | zero => intro i; rfl
  | succ m ih =>
    intro i
    show 3 :: writtenChannels (pageEvents (i + 1) m) = _
    rw [ih (i + 1), List.replicate_succ]

/-- Written names distribute over trace concatenation. -/
theorem writtenNames_append (t₁ t₂ : List Event) :
    writtenNames (t₁ ++ t₂) = writtenNames t₁ ++ writtenNames t₂ := by
  induction t₁ with
  | nil => rfl
  | cons e tr ih => cases e <;> simp [writtenNames, ih]

/-- Written channel counts distribute over trace concatenation. -/
theorem writtenChannels_append (t₁ t₂ : List Event) :
    writtenChannels (t₁ ++ t₂) = writtenChannels t₁ ++ writtenChannels t₂ := by
  induction t₁ with
  | nil => rfl
  | cons e tr ih => cases e <;> simp [writtenChannels, ih]

/-- The Rasterizer's event trace, fully characterised by its environment. -/
theorem pdf_to_png_pages_trace (env : RasterEnv) :
    (pdf_to_png_pages env).2 =
      if env.readOk = false then [Event.mkdirOutdir]
      else if env.openOk = false then [Event.mkdirOutdir, Event.readPdfBytes]
      else if env.pages.length = 0 then
        [Event.mkdirOutdir, Event.readPdfBytes, Event.openDoc, Event.closeDoc]
      else
        [Event.mkdirOutdir, Event.readPdfBytes, Event.openDoc] ++
          pageEvents 0 (env.pages.takeWhile (·.renderOk)).length ++ [Event.closeDoc] := by
  unfold pdf_to_png_pages
  simp only [Nat.le_zero]
  split_ifs <;> try rfl
  rw [renderPagesFrom_eq]

/-- The Rasterizer's result, characterised when the document opens. -/
theorem pdf_to_png_pages_result (env : RasterEnv)
    (hr : env.readOk = true) (ho : env.openOk = true) :
    (pdf_to_png_pages env).1 =
      if env.pages.all (·.renderOk) then Except.ok env.pages.length
      else Except.error Err.rasterizationFailed := by
  unfold pdf_to_png_pages
  by_cases hn : env.pages.length = 0
  · have hnil : env.pages = [] := List.length_eq_zero.mp hn
    simp [hr, ho, hnil]
  · simp only [hr, ho, Bool.true_eq_false, if_false, Nat.le_zero, hn, renderPagesFrom_eq]
    by_cases hall : env.pages.all (·.renderOk) = true
    · simp [hall, Except.map]
    · simp [hall, Except.map]

/-- The Rasterizer never touches the temp directory or the office binary. -/
theorem raster_no_tmp_events (env : RasterEnv) :
    Event.createTmp ∉ (pdf_to_png_pages env).2 ∧
    Event.runSoffice ∉ (pdf_to_png_pages env).2 ∧
    Event.removeTmp ∉ (pdf_to_png_pages env).2 := by
  have h1 : ∀ n i, Event.createTmp ∉ pageEvents i n :=
    fun n i => not_mem_pageEvents _ (fun _ _ h => Event.noConfusion h) n i
  have h2 : ∀ n i, Event.runSoffice ∉ pageEvents i n :=
    fun n i => not_mem_pageEvents _ (fun _ _ h => Event.noConfusion h) n i
  have h3 : ∀ n i, Event.removeTmp ∉ pageEvents i n :=
    fun n i => not_mem_pageEvents _ (fun _ _ h => Event.noConfusion h) n i
  rw [pdf_to_png_pages_trace]
  split_ifs <;> refine ⟨?_, ?_, ?_⟩ <;> simp [h1, h2, h3]

/-- Lengths are preserved by the insertion step of the sort. -/
theorem length_insertStr (a : String) (l : List String) :
    (insertStr a l).length = l.length + 1 := by
  induction l with
  | nil => rfl
  | cons b rest ih =>
    unfold insertStr
    by_cases h : a ≤ b
    · simp [h]
    · simp [h, ih]

/-- Sorting preserves length. -/
theorem length_sortStrs (l : List String) : (sortStrs l).length = l.length := by
  induction l with
  | nil => rfl
  | cons a rest ih => simp [sortStrs, length_insertStr, ih]

/-! ### Claim theorems -/

/-- C1: the claim states that whenever the Converter creates a temporary
directory it is removed exactly once by the end of the run, regardless of
which stage fails. The code violates this on the PDF-discovery failure
stage: in a run where the office binary is found, the subprocess exits 0,
and the temp directory then contains no PDF, the run fails with the
missing-PDF ConversionFailed error, the temp directory was created, and it
is removed zero times — the converter's except-clause only covers the
subprocess call, and the driver's cleanup block is skipped because
`tmp_pdf` was never assigned. -/
theorem main_discovery_failure_leaks_tmpdir :
    Event.createTmp ∈ (main discoveryFailureRun).2 ∧
    countRemoveTmp (main discoveryFailureRun).2 = 0 ∧
    (main discoveryFailureRun).1 =
      Except.error (Err.conversionFailed ConvCause.noPdfProduced) := by
  decide

/-- C2: for every valid PDF input (bytes readable, document opens) whose N
pages all render, the Rasterizer returns N and writes exactly the N files
`page_0001.png` up to the zero-padded name of page N, in order; for N = 0
this gives a count of 0 and no page files, with no error. -/
theorem pdf_to_png_pages_writes_all_pages (env : RasterEnv)
    (hr : env.readOk = true) (ho : env.openOk = true)
    (hall : ∀ p ∈ env.pages, p.renderOk = true) :
    (pdf_to_png_pages env).1 = Except.ok env.pages.length ∧
    writtenNames (pdf_to_png_pages env).2 = pageNames env.pages.length := by
  have hallb : env.pages.all (·.renderOk) = true := List.all_eq_true.mpr hall
  have htake : env.pages.takeWhile (·.renderOk) = env.pages :=
    List.takeWhile_eq_self_iff.mpr hall
  constructor
  · rw [pdf_to_png_pages_result env hr ho]
    simp [hallb]
  · rw [pdf_to_png_pages_trace]
    by_cases hn : env.pages.length = 0
    · simp [hr, ho, hn, writtenNames, pageNames]
    · simp only [hr, Bool.true_eq_false, if_false, ho, hn, htake]
      rw [writtenNames_append, writtenNames_append, writtenNames_pageEvents]
      show [] ++ ((List.range env.pages.length).map fun k => pageFileName (0 + k + 1)) ++ [] = _
      simp only [List.nil_append, List.append_nil, pageNames]
      apply List.map_congr_left
      intro k _
      rw [Nat.zero_add]

/-- Witness for C2 on a concrete 2-page document (also instantiating the
0-page case). -/
theorem pdf_to_png_pages_writes_all_pages_witness :
    (twoPageDoc.readOk = true ∧ twoPageDoc.openOk = true ∧
      (∀ p ∈ twoPageDoc.pages, p.renderOk = true)) ∧
    ((pdf_to_png_pages twoPageDoc).1 = Except.ok twoPageDoc.pages.length ∧
      writtenNames (pdf_to_png_pages twoPageDoc).2 = pageNames twoPageDoc.pages.length) ∧
    ((pdf_to_png_pages emptyDoc).1 = Except.ok 0 ∧
      writtenNames (pdf_to_png_pages emptyDoc).2 = []) :=
  ⟨⟨rfl, rfl, by decide⟩,
   pdf_to_png_pages_writes_all_pages twoPageDoc rfl rfl (by decide),
   pdf_to_png_pages_writes_all_pages emptyDoc rfl rfl (by decide)⟩

/-- C3: for every input whose extension lowercases to `.pdf`, the Driver
invokes no conversion (no office subprocess runs), creates no temporary
directory, and performs no directory removal at all — in particular the
original input file is never deleted — whether the run succeeds or fails. -/
theorem main_pdf_input_no_conversion (env : DriverEnv)
    (h : pyLower (pathSuffix env.inputName) = ".pdf") :
    Event.createTmp ∉ (main env).2 ∧
    Event.runSoffice ∉ (main env).2 ∧
    Event.removeTmp ∉ (main env).2 := by
  unfold main
  by_cases hex : env.inputExists = false
  · simp [hex]
  · simp only [hex, if_false, h, if_true, if_pos]
    exact raster_no_tmp_events env.raster

/-- Witness for C3 on input `report.PDF` (upper-case extension, failing
rasterization). -/
theorem main_pdf_input_no_conversion_witness :
    pyLower (pathSuffix pdfInputRun.inputName) = ".pdf" ∧
    (Event.createTmp ∉ (main pdfInputRun).2 ∧
      Event.runSoffice ∉ (main pdfInputRun).2 ∧
      Event.removeTmp ∉ (main pdfInputRun).2) :=
  ⟨by decide, main_pdf_input_no_conversion pdfInputRun (by decide)⟩

/-- C4: whenever the office-suite subprocess fails (non-zero exit, timeout,
or any other invocation failure), the Converter's run consists of creating
the temp directory, running the subprocess, and removing the temp
directory, and it fails with a ConversionFailed error carrying the
underlying cause; the temp directory is removed exactly once, as the last
effect, so none is left behind. -/
theorem office_to_pdf_subprocess_failure_cleanup (env : ConvEnv) (stem : String)
    (f : SubprocFailure) (hs : env.sofficeFound = true)
    (hf : env.subprocFail = some f) :
    office_to_pdf env stem =
      (Except.error (Err.conversionFailed (ConvCause.process f)),
        [Event.createTmp, Event.runSoffice, Event.removeTmp]) ∧
    countRemoveTmp (office_to_pdf env stem).2 = 1 := by
  have h1 : office_to_pdf env stem =
      (Except.error (Err.conversionFailed (ConvCause.process f)),
        [Event.createTmp, Event.runSoffice, Event.removeTmp]) := by
    unfold office_to_pdf
    simp [hs, hf]
  exact ⟨h1, by rw [h1]; rfl⟩

/-- Witness for C4 on a timed-out conversion. -/
theorem office_to_pdf_subprocess_failure_cleanup_witness :
    (timedOutConv.sofficeFound = true ∧
      timedOutConv.subprocFail = some SubprocFailure.timeout) ∧
    (office_to_pdf timedOutConv "doc" =
      (Except.error (Err.conversionFailed (ConvCause.process SubprocFailure.timeout)),
        [Event.createTmp, Event.runSoffice, Event.removeTmp]) ∧
      countRemoveTmp (office_to_pdf timedOutConv "doc").2 = 1) :=
  ⟨⟨rfl, rfl⟩,
   office_to_pdf_subprocess_failure_cleanup timedOutConv "doc" SubprocFailure.timeout rfl rfl⟩

/-- C5: after a successful office-suite invocation, the Converter returns
the expected `<stem>.pdf` when it exists in the temp directory; when it is
absent it returns the unique `.pdf` file found by scanning; and when the
scan yields zero or more than one `.pdf` files it fails with the
missing-PDF ConversionFailed error. -/
theorem office_to_pdf_locates_output (env : ConvEnv) (stem : String)
    (hs : env.sofficeFound = true) (hf : env.subprocFail = none) :
    ((stem ++ ".pdf") ∈ env.producedFiles →
      (office_to_pdf env stem).1 = Except.ok (stem ++ ".pdf")) ∧
    (∀ p, (stem ++ ".pdf") ∉ env.producedFiles →
      env.producedFiles.filter matchesPdfGlob = [p] →
      (office_to_pdf env stem).1 = Except.ok p) ∧
    ((stem ++ ".pdf") ∉ env.producedFiles →
      (env.producedFiles.filter matchesPdfGlob).length ≠ 1 →
      (office_to_pdf env stem).1 =
        Except.error (Err.conversionFailed ConvCause.noPdfProduced)) := by
  refine ⟨?_, ?_, ?_⟩
  · intro he
    unfold office_to_pdf
    simp [hs, hf, he]
  · intro p hne hfil
    unfold office_to_pdf
    simp [hs, hf, hne, hfil, sortStrs, insertStr]
  · intro hne hlen
    unfold office_to_pdf
    rcases hsort : sortStrs (env.producedFiles.filter matchesPdfGlob) with _ | ⟨x, _ | ⟨y, ys⟩⟩
    · simp [hs, hf, hne, hsort]
    · exfalso
      apply hlen
      have hls := length_sortStrs (env.producedFiles.filter matchesPdfGlob)
      rw [hsort, List.length_singleton] at hls
      omega
    · simp [hs, hf, hne, hsort]

/-- Witness for C5 on a directory where the expected name is absent and the
scan finds exactly one PDF. -/
theorem office_to_pdf_locates_output_witness :
    (fallbackConv.sofficeFound = true ∧ fallbackConv.subprocFail = none) ∧
    (office_to_pdf fallbackConv "doc").1 = Except.ok "renamed.pdf" :=
  ⟨⟨rfl, rfl⟩,
   (office_to_pdf_locates_output fallbackConv "doc" rfl rfl).2.1 "renamed.pdf"
     (by decide) (by decide)⟩

/-- C6: when no office-suite executable is found on the search path, the
Converter fails with a ToolNotFound error and its trace is empty — in
particular no temporary directory was created, so none is left behind. -/
theorem office_to_pdf_tool_not_found (env : ConvEnv) (stem : String)
    (h : env.sofficeFound = false) :
    (office_to_pdf env stem).1 = Except.error Err.toolNotFound ∧
    (office_to_pdf env stem).2 = [] ∧
    Event.createTmp ∉ (office_to_pdf env stem).2 := by
  unfold office_to_pdf
  simp [h]

/-- Witness for C6. -/
theorem office_to_pdf_tool_not_found_witness :
    noToolConv.sofficeFound = false ∧
    ((office_to_pdf noToolConv "doc").1 = Except.error Err.toolNotFound ∧
      (office_to_pdf noToolConv "doc").2 = [] ∧
      Event.createTmp ∉ (office_to_pdf noToolConv "doc").2) :=
  ⟨rfl, office_to_pdf_tool_not_found noToolConv "doc" rfl⟩

/-- C7: every page file the Rasterizer writes is a 3-channel image: an RGBA
rendering is composited onto an opaque white RGB background, any mode other
than RGB/RGBA is converted to RGB, so every write in every run carries 3
channels. -/
theorem pdf_to_png_pages_three_channels (env : RasterEnv) :
    (writtenChannels (pdf_to_png_pages env).2).all (· == 3) = true := by
  rw [pdf_to_png_pages_trace]
  split_ifs <;>
    simp [writtenChannels, writtenChannels_append, writtenChannels_pageEvents,
      List.all_eq_true, List.mem_replicate]

/-- C8: on every exit path of the Rasterizer that opened the document —
normal completion, the zero-page early return, or a failure partway through
rendering — the document handle is closed exactly once; and no event ever
removes anything, so the page files already written (those of the longest
renderable initial segment) remain on disk. -/
theorem pdf_to_png_pages_closes_doc (env : RasterEnv)
    (hr : env.readOk = true) (ho : env.openOk = true) :
    (pdf_to_png_pages env).2.countP (· = Event.closeDoc) = 1 ∧
    countRemoveTmp (pdf_to_png_pages env).2 = 0 ∧
    writtenNames (pdf_to_png_pages env).2 =
      pageNames (env.pages.takeWhile (·.renderOk)).length := by
  have hclose : ∀ n i, (pageEvents i n).countP (· = Event.closeDoc) = 0 :=
    countP_pageEvents _ (fun name c => by simp)
  have hrm : ∀ n i, (pageEvents i n).countP (· = Event.removeTmp) = 0 :=
    countP_pageEvents _ (fun name c => by simp)
  rw [pdf_to_png_pages_trace]
  by_cases hn : env.pages.length = 0
  · have hnil : env.pages = [] := List.length_eq_zero.mp hn
    simp [hr, ho, hn, hnil, countRemoveTmp, writtenNames, pageNames, List.countP_cons]
  · simp only [hr, Bool.true_eq_false, if_false, ho, hn]
    refine ⟨?_, ?_, ?_⟩
    · simp [List.countP_append, List.countP_cons, hclose]
    · simp [countRemoveTmp, List.countP_append, List.countP_cons, hrm]
    · rw [writtenNames_append, writtenNames_append, writtenNames_pageEvents]
      show [] ++ ((List.range _).map fun k => pageFileName (0 + k + 1)) ++ [] = _
      simp only [List.nil_append, List.append_nil, pageNames]
      apply List.map_congr_left
      intro k _
      rw [Nat.zero_add]

/-- Witness for C8 on a document whose second page fails to render: the
handle is closed, nothing is removed, and exactly page_0001.png was
written. -/
theorem pdf_to_png_pages_closes_doc_witness :
    (failingSecondPageDoc.readOk = true ∧ failingSecondPageDoc.openOk = true) ∧
    ((pdf_to_png_pages failingSecondPageDoc).2.countP (· = Event.closeDoc) = 1 ∧
      countRemoveTmp (pdf_to_png_pages failingSecondPageDoc).2 = 0 ∧
      writtenNames (pdf_to_png_pages failingSecondPageDoc).2 =
        pageNames (failingSecondPageDoc.pages.takeWhile (·.renderOk)).length) :=
  ⟨⟨rfl, rfl⟩, pdf_to_png_pages_closes_doc failingSecondPageDoc rfl rfl⟩

/-- C9: the expected file name takes priority over the ambiguity check:
whenever `<stem>.pdf` is among the files of the temp directory after a
successful invocation, the Converter returns it — for any directory
contents, including ones holding additional `.pdf` files. -/
theorem office_to_pdf_expected_priority (env : ConvEnv) (stem : String)
    (hs : env.sofficeFound = true) (hf : env.subprocFail = none)
    (he : (stem ++ ".pdf") ∈ env.producedFiles) :
    (office_to_pdf env stem).1 = Except.ok (stem ++ ".pdf") := by
  unfold office_to_pdf
  simp [hs, hf, he]

/-- Witness for C9 on a directory that holds the expected `doc.pdf` and a
second PDF, `extra.pdf`: the expected one wins. -/
theorem office_to_pdf_expected_priority_witness :
    (multiPdfConv.sofficeFound = true ∧ multiPdfConv.subprocFail = none ∧
      ("doc" ++ ".pdf") ∈ multiPdfConv.producedFiles) ∧
    ("extra.pdf" ∈ multiPdfConv.producedFiles ∧ matchesPdfGlob "extra.pdf" = true) ∧
    (office_to_pdf multiPdfConv "doc").1 = Except.ok ("doc" ++ ".pdf") :=
  ⟨⟨rfl, rfl, by decide⟩, by decide,
   office_to_pdf_expected_priority multiPdfConv "doc" rfl rfl (by decide)⟩

/-- C10: the Rasterizer's first effect, in every run, is creating the
output directory (with parents), before the PDF is read or its page count
examined; so any invocation that gets past this point — including one on a
zero-page PDF — leaves the output directory existing. -/
theorem pdf_to_png_pages_mkdir_first (env : RasterEnv) :
    (pdf_to_png_pages env).2.head? = some Event.mkdirOutdir ∧
    Event.mkdirOutdir ∈ (pdf_to_png_pages env).2 := by
  rw [pdf_to_png_pages_trace]
  split_ifs <;> simp

end OfficeToPng
